import Mathlib

set_option autoImplicit false

/-!
Verification development for the tg-auction-bot repository.

The definitions below are shallow embeddings of the Rust source:
src/util.rs (money codec), src/db.rs (catalog store, modelled as a pure
state type with list-backed tables), src/bot/state.rs (conversation
state) and src/bot/handlers.rs (bid acceptance, draft state machines,
notification fan-out).  Fallible storage calls and message deliveries
are I/O in the source; they are embedded by threading the store state
explicitly and by Boolean oracles that inject the transient failures
the source handles with match/`?`.
-/

/-! ## Money codec (src/util.rs) -/

/-- ASCII digit test: the `\d` character class of the price regex in
src/util.rs line 5 (the inputs exercised here are ASCII). -/
def isAsciiDigit (c : Char) : Bool :=
  48 ≤ c.toNat && c.toNat ≤ 57

/-- Rust `str::trim`: drop leading and trailing whitespace. -/
def trimChars (s : List Char) : List Char :=
  ((s.dropWhile Char.isWhitespace).reverse.dropWhile Char.isWhitespace).reverse

/-- The anchored regex `^\d+(?:\.\d{1,2})?$` from src/util.rs line 5:
a nonempty run of digits, optionally followed by a dot and one or two
digits.  The integer part is the maximal dot-free prefix, which for a
matching string is exactly the digit run. -/
def pricePattern (t : List Char) : Bool :=
  let ip := t.takeWhile (fun c => c != '.')
  let rest := t.dropWhile (fun c => c != '.')
  (decide (ip ≠ [])) && ip.all isAsciiDigit &&
    (match rest with
     | [] => true
     | _ :: frac => frac.all isAsciiDigit && decide (1 ≤ frac.length) && decide (frac.length ≤ 2))

def i64MaxNat : Nat := 9223372036854775807

def i64Max : Int := 9223372036854775807

def i64Min : Int := -9223372036854775808

/-- Value of a digit string, most significant digit first. -/
def digitsVal (s : List Char) : Nat :=
  s.foldl (fun a c => a * 10 + (c.toNat - 48)) 0

/-- Rust `str::parse::<i64>()` on the digit-only substrings produced by
the regex-guarded split in src/util.rs: succeeds exactly on a nonempty
all-digit string whose value fits in an `i64`, and fails (overflow or
empty/non-digit input) otherwise. -/
def parseI64digits (s : List Char) : Option Int :=
  if (!s.isEmpty) && s.all isAsciiDigit && decide (digitsVal s ≤ i64MaxNat) then
    some ((digitsVal s : Nat) : Int)
  else none

/-- First element of Rust `t.split('.')`: the prefix before the first dot. -/
def firstPart (t : List Char) : List Char :=
  t.takeWhile (fun c => c != '.')

/-- Second element of Rust `t.split('.')`: the segment between the first
dot and the following dot or the end, absent when there is no dot. -/
def secondPart (t : List Char) : Option (List Char) :=
  match t.dropWhile (fun c => c != '.') with
  | [] => none
  | _ :: rest => some (rest.takeWhile (fun c => c != '.'))

/-- MoneyError from src/util.rs lines 7-13. -/
inductive MoneyError where
  | InvalidFormat
  | OutOfRange
deriving DecidableEq, Repr

/-- The `major.checked_mul(100).and_then(|v| v.checked_add(minor))`
chain of src/util.rs lines 39-42 on i64. -/
def checkedCents (major minor : Int) : Option Int :=
  if i64Min ≤ major * 100 ∧ major * 100 ≤ i64Max then
    if i64Min ≤ major * 100 + minor ∧ major * 100 + minor ≤ i64Max then
      some (major * 100 + minor)
    else none
  else none

/-- Embedding of `parse_money_to_cents` (src/util.rs lines 15-43). -/
def parse_money_to_cents (input : String) : Except MoneyError Int :=
  let t := trimChars input.data
  if !pricePattern t then .error .InvalidFormat
  else
    match parseI64digits (firstPart t) with
    | none => .error .InvalidFormat
    | some major =>
      let minorRes : Except MoneyError Int :=
        match secondPart t with
        | none => .ok 0
        | some m =>
          if m.length == 1 then
            match parseI64digits (m ++ ['0']) with
            | none => .error .OutOfRange
            | some v => .ok v
          else
            match parseI64digits (m.take 2) with
            | none => .error .OutOfRange
            | some v => .ok v
      match minorRes with
      | .error e => .error e
      | .ok minor =>
        match checkedCents major minor with
        | none => .error .OutOfRange
        | some cents => .ok cents

/-- The minor-unit contribution computed by src/util.rs lines 26-37:
zero without a fractional part, a single fractional digit right-padded
with a zero, otherwise the first two fractional digits. -/
def minorCents (t : List Char) : Nat :=
  match secondPart t with
  | none => 0
  | some m => if m.length == 1 then digitsVal (m ++ ['0']) else digitsVal (m.take 2)

/-! ### Money codec lemmas -/

theorem ne_dot_of_digit (c : Char) (h : isAsciiDigit c = true) : (c != '.') = true := by
  simp only [isAsciiDigit, Bool.and_eq_true, decide_eq_true_eq] at h
  simp only [bne_iff_ne, ne_eq]
  intro hc
  subst hc
  have h46 : ('.' : Char).toNat = 46 := rfl
  omega

theorem takeWhile_ne_dot_of_digits (s : List Char) (h : s.all isAsciiDigit = true) :
    s.takeWhile (fun c => c != '.') = s := by
  induction s with
  | nil => rfl
  | cons c t ih =>
    simp only [List.all_cons, Bool.and_eq_true] at h
    simp [List.takeWhile_cons, ne_dot_of_digit c h.1, ih h.2]

theorem parseI64digits_eq_some (s : List Char) (hne : s ≠ [])
    (hdig : s.all isAsciiDigit = true) (hle : digitsVal s ≤ i64MaxNat) :
    parseI64digits s = some ((digitsVal s : Nat) : Int) := by
  rcases s with _ | ⟨a, l⟩
  · exact absurd rfl hne
  · simp [parseI64digits, hdig, hle]

theorem checkedCents_overflow (a b : Nat) (h : i64MaxNat < 100 * a + b) :
    checkedCents (a : Int) (b : Int) = none := by
  unfold checkedCents
  by_cases hc : i64Min ≤ (a : Int) * 100 ∧ (a : Int) * 100 ≤ i64Max
  · rw [if_pos hc, if_neg]
    rintro ⟨-, h2⟩
    simp only [i64Max, i64MaxNat] at h2 h
    omega
  · rw [if_neg hc]

example : parse_money_to_cents "10" = .ok 1000 := rfl
example : parse_money_to_cents "10.5" = .ok 1050 := rfl
example : parse_money_to_cents "10.55" = .ok 1055 := rfl
example : parse_money_to_cents "abc" = .error .InvalidFormat := rfl
example : parse_money_to_cents "" = .error .InvalidFormat := rfl
example : parse_money_to_cents "10.555" = .error .InvalidFormat := rfl
example : parse_money_to_cents "9223372036854775808" = .error .InvalidFormat := rfl
example : parse_money_to_cents "92233720368547758.08" = .error .OutOfRange := rfl
example : parse_money_to_cents "92233720368547759" = .error .OutOfRange := rfl

/-- C9: parseMoney maps "10" to 1000, "10.5" to 1050 and "10.55" to
1055, and yields InvalidFormat for every input whose trimmed form does
not match the anchored price regex. -/
theorem parse_money_examples_and_invalid (s : String)
    (h : pricePattern (trimChars s.data) = false) :
    parse_money_to_cents s = .error .InvalidFormat ∧
    parse_money_to_cents "10" = .ok 1000 ∧
    parse_money_to_cents "10.5" = .ok 1050 ∧
    parse_money_to_cents "10.55" = .ok 1055 := by
  refine ⟨?_, rfl, rfl, rfl⟩
  simp [parse_money_to_cents, h]

/-- Witness for C9: the rejected inputs named by the claim fail the
format check and are mapped to InvalidFormat. -/
theorem parse_money_examples_and_invalid_witness :
    (pricePattern (trimChars "abc".data) = false ∧
     pricePattern (trimChars "10.555".data) = false ∧
     pricePattern (trimChars "".data) = false) ∧
    parse_money_to_cents "abc" = .error .InvalidFormat ∧
    parse_money_to_cents "10.555" = .error .InvalidFormat ∧
    parse_money_to_cents "" = .error .InvalidFormat :=
  ⟨⟨by decide, by decide, by decide⟩,
   (parse_money_examples_and_invalid "abc" (by decide)).1,
   (parse_money_examples_and_invalid "10.555" (by decide)).1,
   (parse_money_examples_and_invalid "" (by decide)).1⟩

/-- Counterexample to C8: the input "9223372036854775808" (2^63) passes
the format check and its cents value overflows i64, yet the parser
reports InvalidFormat (the i64 parse of the integer part fails first),
not OutOfRange. -/
theorem parse_money_major_overflow_counterexample :
    pricePattern (trimChars "9223372036854775808".data) = true ∧
    i64MaxNat < 100 * digitsVal (firstPart (trimChars "9223372036854775808".data)) +
      minorCents (trimChars "9223372036854775808".data) ∧
    parse_money_to_cents "9223372036854775808" = .error .InvalidFormat ∧
    parse_money_to_cents "9223372036854775808" ≠ .error .OutOfRange := by
  refine ⟨by decide, by decide, rfl, ?_⟩
  intro h
  rw [show parse_money_to_cents "9223372036854775808" = .error .InvalidFormat from rfl] at h
  exact MoneyError.noConfusion (Except.error.inj h)

/-- C8 (amended): when the trimmed input matches the format regex, its
integer part still parses as an i64, and the cents computation
(100 times the integer part plus the fractional contribution)
overflows the i64 range, the parser reports OutOfRange.  When the
integer part alone already overflows i64, the major parse fails first
and the result is InvalidFormat instead. -/
theorem parse_money_overflow_out_of_range (s : String)
    (hpat : pricePattern (trimChars s.data) = true)
    (hmaj : digitsVal (firstPart (trimChars s.data)) ≤ i64MaxNat)
    (hover : i64MaxNat < 100 * digitsVal (firstPart (trimChars s.data)) +
      minorCents (trimChars s.data)) :
    parse_money_to_cents s = .error .OutOfRange := by
  have hpat' := hpat
  simp only [pricePattern, Bool.and_eq_true, decide_eq_true_eq] at hpat'
  obtain ⟨⟨hne, hdig⟩, hmatch⟩ := hpat'
  have hps : parseI64digits (firstPart (trimChars s.data)) =
      some ((digitsVal (firstPart (trimChars s.data)) : Nat) : Int) :=
    parseI64digits_eq_some _ hne hdig hmaj
  rcases hrest : (trimChars s.data).dropWhile (fun c => c != '.') with _ | ⟨c, frac⟩
  · rw [hrest] at hmatch
    have hsp : secondPart (trimChars s.data) = none := by
      simp [secondPart, hrest]
    have hmc : minorCents (trimChars s.data) = 0 := by
      simp [minorCents, hsp]
    rw [hmc, Nat.add_zero] at hover
    have hcc : checkedCents ((digitsVal (firstPart (trimChars s.data)) : Nat) : Int) 0 = none := by
      have := checkedCents_overflow (digitsVal (firstPart (trimChars s.data))) 0 (by omega)
      simpa using this
    simp [parse_money_to_cents, hpat, hps, hsp, hcc]
  · rw [hrest] at hmatch
    replace hmatch : (frac.all isAsciiDigit && decide (1 ≤ frac.length) &&
        decide (frac.length ≤ 2)) = true := hmatch
    simp only [Bool.and_eq_true, decide_eq_true_eq] at hmatch
    obtain ⟨⟨hfd, hlen1⟩, hlen2⟩ := hmatch
    have hsp : secondPart (trimChars s.data) = some frac := by
      simp [secondPart, hrest, takeWhile_ne_dot_of_digits frac hfd]
    have hzero : ('0' : Char).toNat = 48 := rfl
    have hdig0 : isAsciiDigit '0' = true := by decide
    rcases frac with _ | ⟨d1, frac2⟩
    · simp at hlen1
    rcases frac2 with _ | ⟨d2, frac3⟩
    · simp only [List.all_cons, List.all_nil, Bool.and_eq_true, Bool.and_true] at hfd
      have h1 := hfd
      simp only [isAsciiDigit, Bool.and_eq_true, decide_eq_true_eq] at h1
      have hb : digitsVal [d1, '0'] ≤ i64MaxNat := by
        simp only [digitsVal, List.foldl, hzero, i64MaxNat]
        omega
      have hmins : parseI64digits [d1, '0'] = some ((digitsVal [d1, '0'] : Nat) : Int) :=
        parseI64digits_eq_some _ (by simp) (by simp [hfd, hdig0]) hb
      have hmc : minorCents (trimChars s.data) = digitsVal [d1, '0'] := by
        simp [minorCents, hsp]
      rw [hmc] at hover
      have hcc : checkedCents ((digitsVal (firstPart (trimChars s.data)) : Nat) : Int)
          ((digitsVal [d1, '0'] : Nat) : Int) = none :=
        checkedCents_overflow _ _ (by omega)
      simp [parse_money_to_cents, hpat, hps, hsp, hmins, hcc]
    rcases frac3 with _ | ⟨d3, frac4⟩
    · simp only [List.all_cons, List.all_nil, Bool.and_eq_true, Bool.and_true] at hfd
      obtain ⟨h1, h2⟩ := hfd
      simp only [isAsciiDigit, Bool.and_eq_true, decide_eq_true_eq] at h1 h2
      have hb : digitsVal [d1, d2] ≤ i64MaxNat := by
        simp only [digitsVal, List.foldl, i64MaxNat]
        omega
      have hmins : parseI64digits [d1, d2] = some ((digitsVal [d1, d2] : Nat) : Int) := by
        refine parseI64digits_eq_some _ (by simp) ?_ hb
        simp only [List.all_cons, List.all_nil, Bool.and_eq_true, Bool.and_true]
        constructor
        · simp [isAsciiDigit]
          omega
        · simp [isAsciiDigit]
          omega
      have hmc : minorCents (trimChars s.data) = digitsVal [d1, d2] := by
        simp [minorCents, hsp]
      rw [hmc] at hover
      have hcc : checkedCents ((digitsVal (firstPart (trimChars s.data)) : Nat) : Int)
          ((digitsVal [d1, d2] : Nat) : Int) = none :=
        checkedCents_overflow _ _ (by omega)
      simp [parse_money_to_cents, hpat, hps, hsp, hmins, hcc]
    · simp only [List.length_cons] at hlen2
      omega

/-- Witness for the amended C8: "92233720368547759" parses as a major
part inside i64 whose cents value overflows, and is rejected as
OutOfRange. -/
theorem parse_money_overflow_out_of_range_witness :
    (pricePattern (trimChars "92233720368547759".data) = true ∧
     digitsVal (firstPart (trimChars "92233720368547759".data)) ≤ i64MaxNat ∧
     i64MaxNat < 100 * digitsVal (firstPart (trimChars "92233720368547759".data)) +
       minorCents (trimChars "92233720368547759".data)) ∧
    parse_money_to_cents "92233720368547759" = .error .OutOfRange :=
  ⟨⟨by decide, by decide, by decide⟩,
   parse_money_overflow_out_of_range "92233720368547759" (by decide) (by decide) (by decide)⟩

/-! ## Catalog store (src/db.rs), modelled as a pure state type

The Postgres-backed `Db` is embedded as list-backed tables.  Fresh row
ids and `created_at` timestamps come from explicit counters. -/

/-- CategoryRow from src/models.rs. -/
structure CategoryRow where
  id : Int
  name : String
deriving DecidableEq, Repr

/-- ItemRow from src/models.rs (`created_at` as an abstract tick). -/
structure ItemRow where
  id : Int
  seller_tg_id : Int
  category_id : Int
  title : String
  description : Option String
  start_price : Int
  image_file_id : Option String
  is_open : Bool
  is_new : Bool
  created_at : Int
deriving DecidableEq, Repr

/-- A row of the `bids` table (src/db.rs `place_bid` insert). -/
structure BidRow where
  id : Int
  item_id : Int
  bidder_tg_id : Int
  amount : Int
  created_at : Int
deriving DecidableEq, Repr

/-- The persistent store: `categories`, `items`, `bids`, `favorites`
(user, item), `item_images` (item, file id, in insertion order) and
registered `users`, plus the per-user mute flag of the spec's
UserPreference (`muted` holds the users whose notifications are
disabled). -/
structure Db where
  categories : List CategoryRow
  items : List ItemRow
  bids : List BidRow
  favorites : List (Int × Int)
  item_images : List (Int × String)
  users : List Int
  muted : List Int
  next_category_id : Int
  next_item_id : Int
  next_bid_id : Int
  next_created_at : Int
deriving DecidableEq, Repr

/-- ASCII lowercasing, as in Rust `eq_ignore_ascii_case` and the
`LOWER` comparison of src/db.rs `find_category_by_name`. -/
def asciiLower (c : Char) : Char :=
  if 65 ≤ c.toNat ∧ c.toNat ≤ 90 then Char.ofNat (c.toNat + 32) else c

/-- Rust `str::eq_ignore_ascii_case`. -/
def eqIgnoreAsciiCase (a b : String) : Bool :=
  a.data.map asciiLower == b.data.map asciiLower

/-- src/db.rs `get_item`: the item row with the given id, if any. -/
def get_item (db : Db) (item_id : Int) : Option ItemRow :=
  db.items.find? (fun it => it.id == item_id)

/-- src/db.rs `find_category_by_name`: case-insensitive name lookup. -/
def find_category_by_name (db : Db) (name : String) : Option CategoryRow :=
  db.categories.find? (fun c => c.name.data.map asciiLower == name.data.map asciiLower)

/-- src/db.rs `create_category`: insert, returning the fresh id. -/
def create_category (db : Db) (name : String) : Db × Int :=
  ({ db with
      categories := db.categories ++ [⟨db.next_category_id, name⟩],
      next_category_id := db.next_category_id + 1 },
   db.next_category_id)

/-- src/db.rs `list_items_by_category` (row order is irrelevant to the
claims; the table order stands in for the `ORDER BY` clause). -/
def list_items_by_category (db : Db) (category_id : Int) : List ItemRow :=
  db.items.filter (fun it => it.category_id == category_id)

/-- src/db.rs `create_item`: inserts the item (cover image is the first
uploaded image, `is_new = TRUE`, `is_open` defaults to open per the
schema) and one `item_images` row per image, returning the fresh id. -/
def create_item (db : Db) (seller_tg_id category_id : Int) (title : String)
    (description : Option String) (start_price : Int) (image_file_ids : List String) :
    Db × Int :=
  let id := db.next_item_id
  let item : ItemRow :=
    ⟨id, seller_tg_id, category_id, title, description, start_price,
     image_file_ids.head?, true, true, db.next_created_at⟩
  ({ db with
      items := db.items ++ [item],
      item_images := db.item_images ++ image_file_ids.map (fun f => (id, f)),
      next_item_id := id + 1,
      next_created_at := db.next_created_at + 1 },
   id)

/-- Comparison used by the `ORDER BY amount DESC, created_at ASC` of
src/db.rs `best_bid_with_bidder`: `challenger` sorts strictly ahead of
`best`. -/
def betterBid (challenger best : BidRow) : Bool :=
  challenger.amount > best.amount ||
    (challenger.amount == best.amount && challenger.created_at < best.created_at)

/-- The first row of the item's bids under `ORDER BY amount DESC,
created_at ASC` (src/db.rs `best_bid_with_bidder`). -/
def bestBidRow (db : Db) (item_id : Int) : Option BidRow :=
  (db.bids.filter (fun b => b.item_id == item_id)).foldl
    (fun best b =>
      match best with
      | none => some b
      | some cur => if betterBid b cur then some b else some cur)
    none

/-- src/db.rs `best_bid_with_bidder`: bidder and amount of the best bid. -/
def best_bid_with_bidder (db : Db) (item_id : Int) : Option (Int × Int) :=
  (bestBidRow db item_id).map (fun b => (b.bidder_tg_id, b.amount))

/-- src/db.rs `best_bid_for_item`: highest amount bid on the item. -/
def best_bid_for_item (db : Db) (item_id : Int) : Option Int :=
  (db.bids.filter (fun b => b.item_id == item_id)).foldl
    (fun best b =>
      match best with
      | none => some b.amount
      | some a => if b.amount > a then some b.amount else some a)
    none

/-- src/db.rs `place_bid`: insert a bid row, returning the fresh id. -/
def place_bid (db : Db) (item_id bidder_tg_id amount : Int) : Db × Int :=
  ({ db with
      bids := db.bids ++ [⟨db.next_bid_id, item_id, bidder_tg_id, amount, db.next_created_at⟩],
      next_bid_id := db.next_bid_id + 1,
      next_created_at := db.next_created_at + 1 },
   db.next_bid_id)

/-- src/db.rs `close_item`: set `is_open = FALSE` on the item. -/
def close_item (db : Db) (item_id : Int) : Db :=
  { db with
      items := db.items.map (fun it => if it.id == item_id then { it with is_open := false } else it) }

/-- src/db.rs `delete_item`: delete the row (bids and favorites cascade
per the schema), reporting whether a row was affected. -/
def delete_item (db : Db) (item_id : Int) : Db × Bool :=
  let found := db.items.any (fun it => it.id == item_id)
  ({ db with
      items := db.items.filter (fun it => !(it.id == item_id)),
      bids := db.bids.filter (fun b => !(b.item_id == item_id)),
      favorites := db.favorites.filter (fun f => !(f.2 == item_id)),
      item_images := db.item_images.filter (fun f => !(f.1 == item_id)) },
   found)

/-- src/db.rs `delete_category`: delete the category (its items and
their bids/favorites cascade per the schema), reporting whether a row
was affected. -/
def delete_category (db : Db) (category_id : Int) : Db × Bool :=
  let found := db.categories.any (fun c => c.id == category_id)
  let victims := (db.items.filter (fun it => it.category_id == category_id)).map (fun it => it.id)
  ({ db with
      categories := db.categories.filter (fun c => !(c.id == category_id)),
      items := db.items.filter (fun it => !(it.category_id == category_id)),
      bids := db.bids.filter (fun b => !(victims.contains b.item_id)),
      favorites := db.favorites.filter (fun f => !(victims.contains f.2)),
      item_images := db.item_images.filter (fun f => !(victims.contains f.1)) },
   found)

/-- src/db.rs `list_item_bidder_ids` (`SELECT DISTINCT`; set order is
abstracted to list order). -/
def list_item_bidder_ids (db : Db) (item_id : Int) : List Int :=
  ((db.bids.filter (fun b => b.item_id == item_id)).map (fun b => b.bidder_tg_id)).dedup

/-- src/db.rs `list_item_favorite_user_ids` (`SELECT DISTINCT`). -/
def list_item_favorite_user_ids (db : Db) (item_id : Int) : List Int :=
  ((db.favorites.filter (fun f => f.2 == item_id)).map (fun f => f.1)).dedup

/-- src/db.rs `list_user_ids`. -/
def list_user_ids (db : Db) : List Int :=
  db.users

/-- Modelled from the spec: `UserPreference.notificationsMuted` lookup.
`Db::notifications_disabled` is called from src/bot/handlers.rs but its
definition is not present in src/db.rs. -/
def notifications_disabled (db : Db) (user_id : Int) : Bool :=
  db.muted.contains user_id

/-- Modelled from the spec: the closure fan-out honors the per-user mute
preference.  `Db::filter_notifications_allowed` is called from
src/bot/handlers.rs but its definition is not present in src/db.rs. -/
def filter_notifications_allowed (db : Db) (ids : List Int) : List Int :=
  ids.filter (fun u => !notifications_disabled db u)

/-! ## Conversation state (src/bot/state.rs and src/bot/handlers.rs) -/

/-- DraftStage from src/bot/state.rs lines 41-47. -/
inductive DraftStage where
  | Category
  | Title
  | Description
  | StartPrice
deriving DecidableEq, Repr

/-- The AddItem draft as used throughout src/bot/handlers.rs: it keeps
the ordered, deduplicated list `image_file_ids` of uploaded photo
references (the declaration committed in src/bot/state.rs still has a
single optional `image_file_id`; see `AddItemDraftDecl`). -/
structure AddItemDraft where
  stage : DraftStage
  seller_tg_id : Int
  image_file_ids : List String
  category_id : Option Int
  category_name : Option String
  title : Option String
  description : Option String
  start_price : Option Int
deriving DecidableEq, Repr

/-- `AddItemDraft::new`: a fresh draft starts at the Category stage with
all fields unset (handlers.rs always constructs it with no image). -/
def AddItemDraft.new (seller_tg_id : Int) : AddItemDraft :=
  ⟨.Category, seller_tg_id, [], none, none, none, none, none⟩

/-- BidDraft from src/bot/state.rs lines 49-53. -/
structure BidDraft where
  item_id : Int
  bidder_tg_id : Int
deriving DecidableEq, Repr

/-- The conversation state as used by src/bot/handlers.rs (dptree
branches and `dialogue.update` calls): one variant per workflow, the
single-step admin drafts carrying the admin that started them. -/
inductive ConversationState where
  | Idle
  | AddItem (draft : AddItemDraft)
  | PlaceBid (draft : BidDraft)
  | AddCategory (admin_tg_id : Int)
  | CloseItem (admin_tg_id : Int)
  | RemoveItem (admin_tg_id : Int)
  | RemoveCategory (admin_tg_id : Int)
  | Broadcast (admin_tg_id : Int)
deriving DecidableEq, Repr

/-- Verbatim mirror of the AddItemDraft struct DECLARED in
src/bot/state.rs lines 14-24 (single optional image reference). -/
structure AddItemDraftDecl where
  stage : DraftStage
  seller_tg_id : Int
  image_file_id : Option String
  category_id : Option Int
  category_name : Option String
  title : Option String
  description : Option String
  start_price : Option Int
deriving DecidableEq, Repr

/-- Verbatim mirror of the ConversationState enum DECLARED in
src/bot/state.rs lines 5-12: only `Idle`, `AddItem` and `PlaceBid`.
The admin-workflow variants that src/bot/handlers.rs constructs and
matches on are absent from this declaration. -/
inductive ConversationStateDecl where
  | Idle
  | AddItem (draft : AddItemDraftDecl)
  | PlaceBid (draft : BidDraft)
deriving DecidableEq, Repr

/-! ## Handlers (src/bot/handlers.rs)

Each message handler is embedded as a pure step function from the
store, the active draft and the inbound message to the store, the
conversation state left in the dialogue, and the observable
notification effects.  Message sends to the chat itself are reported
as reply tags where a claim depends on them.  Boolean oracles stand
for the success of fallible storage calls and message deliveries. -/

/-- `message_text(&msg).map(|t| t.trim()).filter(|t| !t.is_empty())`:
the trimmed, nonempty text payload of the message, if any. -/
def trimmedText (text : Option String) : Option String :=
  match text with
  | none => none
  | some t =>
    let tt := trimChars t.data
    if tt.isEmpty then none else some (String.mk tt)

/-- Rust `str::parse::<i64>()`: optional sign, then digits, within the
i64 range. -/
def parseI64 (s : List Char) : Option Int :=
  let core : List Char → Bool → Option Int := fun ds neg =>
    if (!ds.isEmpty) && ds.all isAsciiDigit then
      if neg then
        if digitsVal ds ≤ 9223372036854775808 then some (-(digitsVal ds : Int)) else none
      else
        if digitsVal ds ≤ i64MaxNat then some ((digitsVal ds : Nat) : Int) else none
    else none
  match s with
  | '+' :: rest => core rest false
  | '-' :: rest => core rest true
  | _ => core s false

/-- `ensure_category` (handlers.rs lines 1733-1745): get-or-create by
case-insensitive name; the Boolean reports "already existing". -/
def ensure_category (db : Db) (name : String) : Db × CategoryRow × Bool :=
  match find_category_by_name db name with
  | some existing => (db, existing, true)
  | none =>
    let created := create_category db name
    (created.1, ⟨created.2, name⟩, false)

/-- BidError from handlers.rs lines 1751-1767.  `Storage` carries a raw
sqlx error and `Anyhow` a wrapped one (the db wrappers return anyhow
Results, so their failures surface as `Anyhow`). -/
inductive BidError where
  | Storage
  | InvalidAmount (e : MoneyError)
  | Anyhow
  | NotFound
  | Closed
  | TooLow (best : Int)
  | BelowStart (start : Int)
deriving DecidableEq, Repr

/-- `validate_bid` (handlers.rs lines 1783-1803).  `getItemOk` and
`bestBidOk` inject transient failures of the two storage reads (their
anyhow errors propagate through `?`). -/
def validate_bid (getItemOk bestBidOk : Bool) (db : Db) (item_id : Int) (amount : String) :
    Except BidError (ItemRow × Int × Option (Int × Int)) :=
  match parse_money_to_cents amount with
  | .error e => .error (.InvalidAmount e)
  | .ok amount_cents =>
    if !getItemOk then .error .Anyhow
    else
      match get_item db item_id with
      | none => .error .NotFound
      | some item =>
        if !item.is_open then .error .Closed
        else if !bestBidOk then .error .Anyhow
        else
          match best_bid_with_bidder db item_id with
          | some (prev_bidder, best_amount) =>
            if amount_cents ≤ best_amount then .error (.TooLow best_amount)
            else .ok (item, amount_cents, some (prev_bidder, best_amount))
          | none =>
            if amount_cents < item.start_price then .error (.BelowStart item.start_price)
            else .ok (item, amount_cents, none)

/-- `notify_outbid_user` (handlers.rs lines 1617-1649): returns without
sending when the previous bidder muted notifications, otherwise a send
to the previous bidder is attempted. -/
def notify_outbid_user (db : Db) (previous_bidder : Int) : Option Int :=
  if notifications_disabled db previous_bidder then none else some previous_bidder

/-- `notify_seller` (handlers.rs lines 1712-1731): returns without
sending when the seller muted notifications. -/
def notify_seller (db : Db) (seller : Int) : Option Int :=
  if notifications_disabled db seller then none else some seller

/-- Observable outcome of one `handle_bid_message` step: the store, the
conversation left in the dialogue, the recipient of the attempted
outbid notification (after the mute check), whether that delivery
succeeded, the recipient of the attempted seller notification, and
whether the handler aborted with an internal error. -/
structure BidStepResult where
  db : Db
  conv : ConversationState
  outbidTarget : Option Int
  outbidDelivered : Bool
  sellerTarget : Option Int
  errored : Bool
deriving DecidableEq, Repr

/-- `handle_bid_message` (handlers.rs lines 448-532).  `insertOk` and
`highestOk` inject failures of the bid insert and of the post-insert
best-bid read; `outbidSendOk` is the transport outcome of the outbid
notification (its failure is logged and swallowed). -/
def handle_bid_message (db : Db) (draft : BidDraft) (sender : Int) (text : Option String)
    (getItemOk bestBidOk insertOk highestOk outbidSendOk : Bool) : BidStepResult :=
  if sender != draft.bidder_tg_id then
    ⟨db, .PlaceBid draft, none, false, none, false⟩
  else
    match trimmedText text with
    | none => ⟨db, .PlaceBid draft, none, false, none, false⟩
    | some amount_text =>
      match validate_bid getItemOk bestBidOk db draft.item_id amount_text with
      | .ok (item, amount_cents, previous_best) =>
        if !insertOk then ⟨db, .PlaceBid draft, none, false, none, false⟩
        else
          let db1 := (place_bid db draft.item_id sender amount_cents).1
          if !highestOk then ⟨db1, .Idle, none, false, none, true⟩
          else
            let highest := best_bid_with_bidder db1 draft.item_id
            let is_highest :=
              match highest with
              | some (top_bidder, top_amount) => top_bidder == sender && top_amount == amount_cents
              | none => false
            let outbid :=
              if is_highest then
                match previous_best with
                | some (prev_bidder, _) =>
                  if prev_bidder != sender then notify_outbid_user db1 prev_bidder else none
                | none => none
              else none
            ⟨db1, .Idle, outbid, outbid.isSome && outbidSendOk,
             notify_seller db1 item.seller_tg_id, false⟩
      | .error .Storage => ⟨db, .PlaceBid draft, none, false, none, false⟩
      | .error (.InvalidAmount _) => ⟨db, .PlaceBid draft, none, false, none, false⟩
      | .error .Anyhow => ⟨db, .PlaceBid draft, none, false, none, false⟩
      | .error .NotFound => ⟨db, .Idle, none, false, none, false⟩
      | .error .Closed => ⟨db, .Idle, none, false, none, false⟩
      | .error (.TooLow _) => ⟨db, .PlaceBid draft, none, false, none, false⟩
      | .error (.BelowStart _) => ⟨db, .PlaceBid draft, none, false, none, false⟩

/-- Outcome of one `handle_additem_message` step.  `errored` marks the
abort through `.context(...)?` when the draft reaches StartPrice with a
missing category or title (the dialogue is left untouched there). -/
structure AddItemStepResult where
  db : Db
  conv : ConversationState
  errored : Bool
deriving DecidableEq, Repr

/-- `handle_additem_message` (handlers.rs lines 308-446).  `photo` is
the file id of the largest-resolution photo attached to the message,
if any.  Storage calls are modelled on their success path.  Note that
a photo arriving together with text is persisted only by the
`dialogue.update` of the stage branches: the StartPrice parse-failure
branch performs no update, so the stored draft stays as it was. -/
def handle_additem_message (db : Db) (draft : AddItemDraft) (sender : Int)
    (photo : Option String) (text : Option String) : AddItemStepResult :=
  if sender != draft.seller_tg_id then
    ⟨db, .AddItem draft, false⟩
  else
    let draft1 :=
      match photo with
      | some fid =>
        if draft.image_file_ids.any (fun existing => existing == fid) then draft
        else { draft with image_file_ids := draft.image_file_ids ++ [fid] }
      | none => draft
    match trimmedText text with
    | none => ⟨db, .AddItem draft1, false⟩
    | some t =>
      if eqIgnoreAsciiCase t "cancel" then ⟨db, .Idle, false⟩
      else
        match draft1.stage with
        | .Category =>
          let ec := ensure_category db t
          ⟨ec.1,
           .AddItem { draft1 with
              category_id := some ec.2.1.id,
              category_name := some ec.2.1.name,
              stage := .Title },
           false⟩
        | .Title =>
          ⟨db, .AddItem { draft1 with title := some t, stage := .Description }, false⟩
        | .Description =>
          let value := if t == "-" then none else some t
          ⟨db, .AddItem { draft1 with description := value, stage := .StartPrice }, false⟩
        | .StartPrice =>
          match parse_money_to_cents t with
          | .ok v =>
            match draft1.category_id, draft1.title with
            | some cid, some ttl =>
              let ci := create_item db draft1.seller_tg_id cid ttl draft1.description v
                draft1.image_file_ids
              ⟨ci.1, .Idle, false⟩
            | _, _ => ⟨db, .AddItem draft, true⟩
          | .error _ => ⟨db, .AddItem draft, false⟩

/-- Outcome of a single-step admin handler: store and conversation. -/
structure AdminStepResult where
  db : Db
  conv : ConversationState
deriving DecidableEq, Repr

/-- `handle_add_category_message` (handlers.rs lines 534-577). -/
def handle_add_category_message (db : Db) (admin_tg_id sender : Int)
    (text : Option String) : AdminStepResult :=
  if sender != admin_tg_id then ⟨db, .AddCategory admin_tg_id⟩
  else
    match trimmedText text with
    | none => ⟨db, .AddCategory admin_tg_id⟩
    | some raw =>
      if eqIgnoreAsciiCase raw "cancel" then ⟨db, .Idle⟩
      else
        let ec := ensure_category db raw
        ⟨ec.1, .Idle⟩

/-- The per-recipient closure message of `notify_item_closed`. -/
inductive ClosedMsg where
  | Won (amount : Int)
  | FinalPrice (amount : Int)
  | NoBids
deriving DecidableEq, Repr

/-- `notify_item_closed` (handlers.rs lines 1651-1697): recipients are
the item's bidders and favoriters (a set; iteration order abstracted
to first-occurrence order), filtered by the mute preference; the
winner gets a distinct message, everyone else the final price, or a
no-bids notice when no bid exists.  Per-recipient delivery failures
are logged and skipped, so the attempted sends are the whole list. -/
def notify_item_closed (db : Db) (item : ItemRow) : List (Int × ClosedMsg) :=
  let winning := best_bid_with_bidder db item.id
  let recipients := (list_item_bidder_ids db item.id ++ list_item_favorite_user_ids db item.id).dedup
  if recipients.isEmpty then []
  else
    let allowed := filter_notifications_allowed db recipients
    allowed.map (fun uid =>
      match winning with
      | some (winner, amount) =>
        if uid == winner then (uid, ClosedMsg.Won amount) else (uid, ClosedMsg.FinalPrice amount)
      | none => (uid, ClosedMsg.NoBids))

/-- The reply `handle_close_item_message` sends back to the admin chat. -/
inductive CloseReply where
  | OwnerOnly
  | Prompt
  | Cancelled
  | NonNumeric
  | ItemMissing
  | AlreadyClosed
  | ClosedOk
deriving DecidableEq, Repr

/-- Outcome of one `handle_close_item_message` step: store,
conversation, whether `Db::close_item` was invoked, the closure
notifications attempted, and the reply sent to the admin. -/
structure CloseStepResult where
  db : Db
  conv : ConversationState
  closeInvoked : Bool
  notices : List (Int × ClosedMsg)
  reply : CloseReply
deriving DecidableEq, Repr

/-- `handle_close_item_message` (handlers.rs lines 630-694).  The
already-closed branch resets the dialogue and reports without calling
`close_item` or `notify_item_closed`; the open branch closes, resets
and then notifies (with the pre-close item row, post-close store). -/
def handle_close_item_message (db : Db) (admin_tg_id sender : Int)
    (text : Option String) : CloseStepResult :=
  if sender != admin_tg_id then ⟨db, .CloseItem admin_tg_id, false, [], .OwnerOnly⟩
  else
    match trimmedText text with
    | none => ⟨db, .CloseItem admin_tg_id, false, [], .Prompt⟩
    | some raw =>
      if eqIgnoreAsciiCase raw "cancel" then ⟨db, .Idle, false, [], .Cancelled⟩
      else
        match parseI64 raw.data with
        | none => ⟨db, .CloseItem admin_tg_id, false, [], .NonNumeric⟩
        | some item_id =>
          match get_item db item_id with
          | none => ⟨db, .CloseItem admin_tg_id, false, [], .ItemMissing⟩
          | some item =>
            if !item.is_open then ⟨db, .Idle, false, [], .AlreadyClosed⟩
            else
              let db1 := close_item db item_id
              ⟨db1, .Idle, true, notify_item_closed db1 item, .ClosedOk⟩

/-- `handle_remove_item_message` (handlers.rs lines 749-805). -/
def handle_remove_item_message (db : Db) (admin_tg_id sender : Int)
    (text : Option String) : AdminStepResult :=
  if sender != admin_tg_id then ⟨db, .RemoveItem admin_tg_id⟩
  else
    match trimmedText text with
    | none => ⟨db, .RemoveItem admin_tg_id⟩
    | some raw =>
      if eqIgnoreAsciiCase raw "cancel" then ⟨db, .Idle⟩
      else
        match parseI64 raw.data with
        | none => ⟨db, .RemoveItem admin_tg_id⟩
        | some item_id =>
          let dr := delete_item db item_id
          if dr.2 then ⟨dr.1, .Idle⟩ else ⟨dr.1, .RemoveItem admin_tg_id⟩

/-- `handle_remove_category_message` (handlers.rs lines 807-870). -/
def handle_remove_category_message (db : Db) (admin_tg_id sender : Int)
    (text : Option String) : AdminStepResult :=
  if sender != admin_tg_id then ⟨db, .RemoveCategory admin_tg_id⟩
  else
    match trimmedText text with
    | none => ⟨db, .RemoveCategory admin_tg_id⟩
    | some raw =>
      if eqIgnoreAsciiCase raw "cancel" then ⟨db, .Idle⟩
      else
        match find_category_by_name db raw with
        | none => ⟨db, .RemoveCategory admin_tg_id⟩
        | some category =>
          let dr := delete_category db category.id
          if dr.2 then ⟨dr.1, .Idle⟩ else ⟨dr.1, .RemoveCategory admin_tg_id⟩

/-- `broadcast_text` (handlers.rs lines 1596-1615): attempt a delivery
to every recipient in list order; a failed send is logged and skipped;
the returned value counts the successful deliveries.  `deliver` is the
transport outcome per recipient. -/
def broadcast_text (deliver : Int → Bool) (user_ids : List Int) : Nat :=
  user_ids.foldl (fun delivered user_id => if deliver user_id then delivered + 1 else delivered) 0

/-- Outcome of one `handle_broadcast_message` step; `delivered` is the
count reported back to the admin when a broadcast ran. -/
structure BroadcastStepResult where
  db : Db
  conv : ConversationState
  delivered : Option Nat
deriving DecidableEq, Repr

/-- `handle_broadcast_message` (handlers.rs lines 696-747).  The text
payload is used as-is (no trimming or emptiness filter). -/
def handle_broadcast_message (db : Db) (admin_tg_id sender : Int)
    (text : Option String) (deliver : Int → Bool) : BroadcastStepResult :=
  if sender != admin_tg_id then ⟨db, .Broadcast admin_tg_id, none⟩
  else
    match text with
    | none => ⟨db, .Broadcast admin_tg_id, none⟩
    | some _ =>
      let recipients := list_user_ids db
      if recipients.isEmpty then ⟨db, .Idle, none⟩
      else ⟨db, .Idle, some (broadcast_text deliver recipients)⟩

/-! ## Sample store states used by the witnesses -/

/-- An open item with start price 5000 cents, seller 100. -/
def itemA : ItemRow :=
  ⟨1, 100, 1, "Lot", none, 5000, none, true, true, 0⟩

/-- A store with one open item and no bids. -/
def dbA : Db :=
  ⟨[⟨1, "Books"⟩], [itemA], [], [], [], [100, 200, 201, 300], [], 2, 2, 1, 1⟩

/-- The same store after user 200 bid 5000 cents on item 1. -/
def dbB : Db :=
  { dbA with bids := [⟨1, 1, 200, 5000, 1⟩], next_bid_id := 2, next_created_at := 2 }

/-! ## C1: order of the bid validation checks -/

/-- C1: `validate_bid` applies its checks in order: unparsable amount
gives InvalidAmount; then a missing item gives NotFound; then a closed
item gives Closed; then, when a best bid exists, an amount at or below
it gives TooLow (carrying the best amount) and an amount above it is
accepted; with no prior bid, an amount below the start price gives
BelowStart (carrying the start price) and an amount at or above the
start price is accepted.  In particular a first bid equal to the start
price is accepted and a bid equal to the current best is TooLow. -/
theorem validate_bid_check_order (db : Db) (item_id : Int) (s : String) :
    (∀ e, parse_money_to_cents s = .error e →
        validate_bid true true db item_id s = .error (.InvalidAmount e)) ∧
    (∀ c, parse_money_to_cents s = .ok c → get_item db item_id = none →
        validate_bid true true db item_id s = .error .NotFound) ∧
    (∀ c item, parse_money_to_cents s = .ok c → get_item db item_id = some item →
        item.is_open = false →
        validate_bid true true db item_id s = .error .Closed) ∧
    (∀ c item pb pa, parse_money_to_cents s = .ok c → get_item db item_id = some item →
        item.is_open = true → best_bid_with_bidder db item_id = some (pb, pa) →
        c ≤ pa →
        validate_bid true true db item_id s = .error (.TooLow pa)) ∧
    (∀ c item pb pa, parse_money_to_cents s = .ok c → get_item db item_id = some item →
        item.is_open = true → best_bid_with_bidder db item_id = some (pb, pa) →
        pa < c →
        validate_bid true true db item_id s = .ok (item, c, some (pb, pa))) ∧
    (∀ c item, parse_money_to_cents s = .ok c → get_item db item_id = some item →
        item.is_open = true → best_bid_with_bidder db item_id = none →
        c < item.start_price →
        validate_bid true true db item_id s = .error (.BelowStart item.start_price)) ∧
    (∀ c item, parse_money_to_cents s = .ok c → get_item db item_id = some item →
        item.is_open = true → best_bid_with_bidder db item_id = none →
        item.start_price ≤ c →
        validate_bid true true db item_id s = .ok (item, c, none)) := by
  refine ⟨?_, ?_, ?_, ?_, ?_, ?_, ?_⟩
  · intro e he
    simp [validate_bid, he]
  · intro c hc hg
    simp [validate_bid, hc, hg]
  · intro c item hc hg ho
    simp [validate_bid, hc, hg, ho]
  · intro c item pb pa hc hg ho hb hle
    simp [validate_bid, hc, hg, ho, hb, hle]
  · intro c item pb pa hc hg ho hb hlt
    simp [validate_bid, hc, hg, ho, hb, not_le.mpr hlt]
  · intro c item hc hg ho hb hlt
    simp [validate_bid, hc, hg, ho, hb, hlt]
  · intro c item hc hg ho hb hge
    simp [validate_bid, hc, hg, ho, hb, not_lt.mpr hge]

/-- Witness for C1: on the sample store a first bid of exactly the
start price (5000 cents) is accepted, and with a standing best bid of
5000 an equal bid is rejected as TooLow 5000. -/
theorem validate_bid_check_order_witness :
    validate_bid true true dbA 1 "50.00" = .ok (itemA, 5000, none) ∧
    validate_bid true true dbB 1 "50.00" = .error (.TooLow 5000) :=
  ⟨(validate_bid_check_order dbA 1 "50.00").2.2.2.2.2.2 5000 itemA rfl rfl rfl rfl
      (by decide),
   (validate_bid_check_order dbB 1 "50.00").2.2.2.1 5000 itemA 200 5000 rfl rfl rfl rfl
      (by decide)⟩

/-! ## C2: rejected bids leave the store unchanged -/

/-- C2: when validation rejects the bid with TooLow, BelowStart,
NotFound, Closed or InvalidAmount, `handle_bid_message` never calls
`place_bid`, the store is unchanged, and hence the best-bid result for
the item after the call equals the one before it. -/
theorem rejected_bid_preserves_best (db : Db) (draft : BidDraft) (sender : Int)
    (text : Option String) (a : String) (go bo io ho oso : Bool) (e : BidError)
    (ha : trimmedText text = some a)
    (hval : validate_bid go bo db draft.item_id a = .error e)
    (he : e = .NotFound ∨ e = .Closed ∨ (∃ v, e = .TooLow v) ∨
          (∃ v, e = .BelowStart v) ∨ (∃ m, e = .InvalidAmount m)) :
    (handle_bid_message db draft sender text go bo io ho oso).db = db ∧
    best_bid_with_bidder (handle_bid_message db draft sender text go bo io ho oso).db
        draft.item_id =
      best_bid_with_bidder db draft.item_id := by
  have hdb : (handle_bid_message db draft sender text go bo io ho oso).db = db := by
    by_cases hs : (sender != draft.bidder_tg_id) = true
    · simp [handle_bid_message, hs]
    · rcases he with h | h | ⟨v, h⟩ | ⟨v, h⟩ | ⟨m, h⟩ <;> subst h <;>
        simp [handle_bid_message, hs, ha, hval]
  exact ⟨hdb, by rw [hdb]⟩

/-- Witness for C2: the rejected equal-to-best bid on the sample store
leaves the store, and so the best bid, unchanged. -/
theorem rejected_bid_preserves_best_witness :
    (handle_bid_message dbB ⟨1, 201⟩ 201 (some "50.00") true true true true true).db = dbB ∧
    best_bid_with_bidder
        (handle_bid_message dbB ⟨1, 201⟩ 201 (some "50.00") true true true true true).db 1 =
      best_bid_with_bidder dbB 1 :=
  rejected_bid_preserves_best dbB ⟨1, 201⟩ 201 (some "50.00") "50.00" true true true true true
    (.TooLow 5000) rfl rfl (Or.inr (Or.inr (Or.inl ⟨5000, rfl⟩)))

/-! ## C3: when the place-bid draft is cleared -/

/-- C3: for an owner-sent, nonempty bid message, the conversation is
reset to Idle exactly on acceptance (validation ok and the insert
succeeded) and on the terminal errors NotFound and Closed; on TooLow,
BelowStart, InvalidAmount (including InvalidFormat), on a transient
storage failure during validation, and on a failed insert, the draft is
retained unchanged. -/
theorem bid_draft_reset_policy (db : Db) (draft : BidDraft) (sender : Int)
    (text : Option String) (a : String) (go bo io ho oso : Bool)
    (hs : sender = draft.bidder_tg_id) (ha : trimmedText text = some a) :
    (∀ item c pb, validate_bid go bo db draft.item_id a = .ok (item, c, pb) → io = true →
        (handle_bid_message db draft sender text go bo io ho oso).conv = .Idle) ∧
    (validate_bid go bo db draft.item_id a = .error .NotFound →
        (handle_bid_message db draft sender text go bo io ho oso).conv = .Idle) ∧
    (validate_bid go bo db draft.item_id a = .error .Closed →
        (handle_bid_message db draft sender text go bo io ho oso).conv = .Idle) ∧
    (∀ v, validate_bid go bo db draft.item_id a = .error (.TooLow v) →
        (handle_bid_message db draft sender text go bo io ho oso).conv = .PlaceBid draft) ∧
    (∀ v, validate_bid go bo db draft.item_id a = .error (.BelowStart v) →
        (handle_bid_message db draft sender text go bo io ho oso).conv = .PlaceBid draft) ∧
    (∀ m, validate_bid go bo db draft.item_id a = .error (.InvalidAmount m) →
        (handle_bid_message db draft sender text go bo io ho oso).conv = .PlaceBid draft) ∧
    (validate_bid go bo db draft.item_id a = .error .Storage ∨
     validate_bid go bo db draft.item_id a = .error .Anyhow →
        (handle_bid_message db draft sender text go bo io ho oso).conv = .PlaceBid draft) ∧
    (∀ item c pb, validate_bid go bo db draft.item_id a = .ok (item, c, pb) → io = false →
        (handle_bid_message db draft sender text go bo io ho oso).conv = .PlaceBid draft) := by
  subst hs
  refine ⟨?_, ?_, ?_, ?_, ?_, ?_, ?_, ?_⟩
  · intro item c pb hval hio
    subst hio
    cases ho <;> simp [handle_bid_message, ha, hval]
  · intro hval
    simp [handle_bid_message, ha, hval]
  · intro hval
    simp [handle_bid_message, ha, hval]
  · intro v hval
    simp [handle_bid_message, ha, hval]
  · intro v hval
    simp [handle_bid_message, ha, hval]
  · intro m hval
    simp [handle_bid_message, ha, hval]
  · rintro (hval | hval) <;> simp [handle_bid_message, ha, hval]
  · intro item c pb hval hio
    subst hio
    simp [handle_bid_message, ha, hval]

/-- Witness for C3: an accepted first bid resets the conversation to
Idle, while an equal-to-best bid (TooLow) retains the draft. -/
theorem bid_draft_reset_policy_witness :
    (handle_bid_message dbA ⟨1, 200⟩ 200 (some "50.00") true true true true true).conv =
      .Idle ∧
    (handle_bid_message dbB ⟨1, 201⟩ 201 (some "50.00") true true true true true).conv =
      .PlaceBid ⟨1, 201⟩ :=
  ⟨(bid_draft_reset_policy dbA ⟨1, 200⟩ 200 (some "50.00") "50.00" true true true true true
      rfl rfl).1 itemA 5000 none rfl rfl,
   (bid_draft_reset_policy dbB ⟨1, 201⟩ 201 (some "50.00") "50.00" true true true true true
      rfl rfl).2.2.2.1 5000 rfl⟩

/-! ## C4: outbid notification policy on an accepted bid -/

/-- C4: once validation succeeds and the bid is committed, the store
holds exactly the committed bid; the outbid notification is attempted
to a previous bidder `pb` if and only if the committed bid is now the
highest, a previous best bid by `pb` existed, `pb` differs from the new
bidder, and `pb` has not muted notifications; and the committed store
does not depend on the delivery outcome of that notification. -/
theorem accepted_bid_outbid_policy (db : Db) (draft : BidDraft) (sender : Int)
    (text : Option String) (a : String) (so : Bool)
    (item : ItemRow) (cents : Int) (prev : Option (Int × Int))
    (hs : sender = draft.bidder_tg_id) (ha : trimmedText text = some a)
    (hval : validate_bid true true db draft.item_id a = .ok (item, cents, prev)) :
    (handle_bid_message db draft sender text true true true true so).db =
      (place_bid db draft.item_id sender cents).1 ∧
    (∀ pb : Int,
      (handle_bid_message db draft sender text true true true true so).outbidTarget = some pb ↔
        (best_bid_with_bidder (place_bid db draft.item_id sender cents).1 draft.item_id =
            some (sender, cents) ∧
         (∃ pa, prev = some (pb, pa)) ∧ pb ≠ sender ∧
         notifications_disabled db pb = false)) ∧
    (∀ so1 so2,
      (handle_bid_message db draft sender text true true true true so1).db =
        (handle_bid_message db draft sender text true true true true so2).db) := by
  subst hs
  refine ⟨?_, ?_, ?_⟩
  · simp [handle_bid_message, ha, hval]
  · intro pb
    constructor
    · intro h
      simp only [handle_bid_message, bne_self_eq_false, Bool.not_false, if_false, ha, hval,
        Bool.not_true, Bool.false_eq_true, ite_false, ite_true] at h
      split at h
      · rename_i hcond
        rcases hprev : prev with _ | ⟨pb0, pa0⟩
        · rw [hprev] at h
          exact absurd h (by simp)
        · rw [hprev] at h
          replace h : (if (pb0 != draft.bidder_tg_id) = true then
              notify_outbid_user (place_bid db draft.item_id draft.bidder_tg_id cents).1 pb0
            else none) = some pb := h
          by_cases hbne : (pb0 != draft.bidder_tg_id) = true
          · rw [if_pos hbne] at h
            unfold notify_outbid_user at h
            split at h
            · exact absurd h (by simp)
            · rename_i hmute
              have hpb : pb0 = pb := by
                exact Option.some.inj h
              subst hpb
              refine ⟨?_, ⟨pa0, rfl⟩, by simpa [bne_iff_ne] using hbne, ?_⟩
              · rcases hbb : best_bid_with_bidder
                    (place_bid db draft.item_id draft.bidder_tg_id cents).1 draft.item_id with
                  _ | ⟨tb, ta⟩
                · rw [hbb] at hcond
                  simp at hcond
                · rw [hbb] at hcond
                  simp only [Bool.and_eq_true, beq_iff_eq] at hcond
                  rw [hcond.1, hcond.2]
              · simpa [notifications_disabled, place_bid] using hmute
          · rw [if_neg hbne] at h
            exact absurd h (by simp)
      · exact absurd h (by simp)
    · rintro ⟨hbb, ⟨pa, hprev⟩, hneq, hmute⟩
      subst hprev
      have hmute1 : notifications_disabled
          (place_bid db draft.item_id draft.bidder_tg_id cents).1 pb = false := by
        simpa [notifications_disabled, place_bid] using hmute
      simp [handle_bid_message, ha, hval, hbb, notify_outbid_user, hmute1, bne_iff_ne, hneq]
  · intro so1 so2
    simp [handle_bid_message, ha, hval]

/-- Witness for C4: on the sample store user 300 outbids user 200 with
6000 over 5000 while the delivery of the outbid notice fails; the bid
is still committed, and the notification was attempted to user 200. -/
theorem accepted_bid_outbid_policy_witness :
    (handle_bid_message dbB ⟨1, 300⟩ 300 (some "60.00") true true true true false).db =
      (place_bid dbB 1 300 6000).1 ∧
    (handle_bid_message dbB ⟨1, 300⟩ 300 (some "60.00") true true true true false).outbidTarget =
      some 200 ∧
    (handle_bid_message dbB ⟨1, 300⟩ 300 (some "60.00") true true true true true).db =
      (handle_bid_message dbB ⟨1, 300⟩ 300 (some "60.00") true true true true false).db :=
  ⟨(accepted_bid_outbid_policy dbB ⟨1, 300⟩ 300 (some "60.00") "60.00" false itemA 6000
      (some (200, 5000)) rfl rfl rfl).1,
   ((accepted_bid_outbid_policy dbB ⟨1, 300⟩ 300 (some "60.00") "60.00" false itemA 6000
      (some (200, 5000)) rfl rfl rfl).2.1 200).mpr
     ⟨rfl, ⟨5000, rfl⟩, by decide, rfl⟩,
   (accepted_bid_outbid_policy dbB ⟨1, 300⟩ 300 (some "60.00") "60.00" true itemA 6000
      (some (200, 5000)) rfl rfl rfl).2.2 true false⟩

/-! ## C5: closing an item is idempotent -/

theorem find_map_close (i : Int) (l : List ItemRow) :
    (l.map (fun it => if it.id == i then { it with is_open := false } else it)).find?
        (fun it => it.id == i) =
      (l.find? (fun it => it.id == i)).map (fun it => { it with is_open := false }) := by
  have hcomp : ((fun it : ItemRow => it.id == i) ∘
      (fun it : ItemRow => if it.id == i then { it with is_open := false } else it)) =
      fun it : ItemRow => it.id == i := by
    funext it
    by_cases h : (it.id == i) = true
    · have h2 : it.id = i := by simpa using h
      simp [h2]
    · have h2 : ¬it.id = i := by simpa using h
      simp [h2]
  rw [List.find?_map, hcomp]
  rcases hf : List.find? (fun it : ItemRow => it.id == i) l with _ | a
  · rfl
  · have ha := List.find?_some hf
    have h2 : a.id = i := by simpa using ha
    simp [h2]

theorem get_item_close_item (db : Db) (i : Int) :
    get_item (close_item db i) i =
      (get_item db i).map (fun it => { it with is_open := false }) := by
  simpa [get_item, close_item] using find_map_close i db.items

/-- C5: closing is idempotent.  When the targeted item is already
closed, the handler reports AlreadyClosed, leaves the store untouched,
does not invoke `close_item` and attempts no closure notification.
When it closes an open item, immediately repeating the same command on
the resulting store performs no further close and sends no further
closure notifications.  Closure notifications can only be attempted in
a step that actually invoked `close_item` (the open-to-closed
transition). -/
theorem close_item_idempotent (db : Db) (admin sender : Int) (text : Option String)
    (raw : String) (item_id : Int) (item : ItemRow)
    (hs : sender = admin) (ha : trimmedText text = some raw)
    (hcancel : eqIgnoreAsciiCase raw "cancel" = false)
    (hid : parseI64 raw.data = some item_id)
    (hitem : get_item db item_id = some item) :
    (item.is_open = false →
      (handle_close_item_message db admin sender text).db = db ∧
      (handle_close_item_message db admin sender text).conv = .Idle ∧
      (handle_close_item_message db admin sender text).closeInvoked = false ∧
      (handle_close_item_message db admin sender text).notices = [] ∧
      (handle_close_item_message db admin sender text).reply = .AlreadyClosed) ∧
    (item.is_open = true →
      (handle_close_item_message db admin sender text).closeInvoked = true ∧
      (handle_close_item_message db admin sender text).db = close_item db item_id ∧
      (handle_close_item_message (handle_close_item_message db admin sender text).db
          admin sender text).closeInvoked = false ∧
      (handle_close_item_message (handle_close_item_message db admin sender text).db
          admin sender text).notices = [] ∧
      (handle_close_item_message (handle_close_item_message db admin sender text).db
          admin sender text).reply = .AlreadyClosed ∧
      (handle_close_item_message (handle_close_item_message db admin sender text).db
          admin sender text).db =
        (handle_close_item_message db admin sender text).db) ∧
    ((handle_close_item_message db admin sender text).notices ≠ [] →
      (handle_close_item_message db admin sender text).closeInvoked = true) := by
  have hguard : (sender != admin) = false := by simp [hs]
  refine ⟨?_, ?_, ?_⟩
  · intro hclosed
    simp [handle_close_item_message, hguard, ha, hcancel, hid, hitem, hclosed]
  · intro hopen
    have hstep : (handle_close_item_message db admin sender text).db = close_item db item_id ∧
        (handle_close_item_message db admin sender text).closeInvoked = true := by
      constructor <;>
        simp [handle_close_item_message, hguard, ha, hcancel, hid, hitem, hopen]
    have hitem2 : get_item (close_item db item_id) item_id =
        some { item with is_open := false } := by
      rw [get_item_close_item, hitem]
      rfl
    refine ⟨hstep.2, hstep.1, ?_, ?_, ?_, ?_⟩ <;>
      rw [hstep.1] <;>
      simp [handle_close_item_message, hguard, ha, hcancel, hid, hitem2]
  · intro hne
    by_cases hopen : item.is_open = true
    · simp [handle_close_item_message, hguard, ha, hcancel, hid, hitem, hopen]
    · simp only [Bool.not_eq_true] at hopen
      exact absurd
        (by simp [handle_close_item_message, hguard, ha, hcancel, hid, hitem, hopen]) hne

/-- A closed copy of the sample item, and stores for the C5 witness. -/
def dbClosed : Db :=
  { dbA with items := [{ itemA with is_open := false }] }

/-- Witness for C5: closing the already-closed item 1 reports
AlreadyClosed with no store change and no notifications, and closing
the open item 1 then repeating the command performs no second close
and no further notifications. -/
theorem close_item_idempotent_witness :
    ((handle_close_item_message dbClosed 100 100 (some "1")).db = dbClosed ∧
     (handle_close_item_message dbClosed 100 100 (some "1")).conv = .Idle ∧
     (handle_close_item_message dbClosed 100 100 (some "1")).closeInvoked = false ∧
     (handle_close_item_message dbClosed 100 100 (some "1")).notices = [] ∧
     (handle_close_item_message dbClosed 100 100 (some "1")).reply = .AlreadyClosed) ∧
    ((handle_close_item_message dbA 100 100 (some "1")).closeInvoked = true ∧
     (handle_close_item_message dbA 100 100 (some "1")).db = close_item dbA 1 ∧
     (handle_close_item_message (handle_close_item_message dbA 100 100 (some "1")).db
        100 100 (some "1")).closeInvoked = false ∧
     (handle_close_item_message (handle_close_item_message dbA 100 100 (some "1")).db
        100 100 (some "1")).notices = [] ∧
     (handle_close_item_message (handle_close_item_message dbA 100 100 (some "1")).db
        100 100 (some "1")).reply = .AlreadyClosed ∧
     (handle_close_item_message (handle_close_item_message dbA 100 100 (some "1")).db
        100 100 (some "1")).db =
       (handle_close_item_message dbA 100 100 (some "1")).db) :=
  ⟨(close_item_idempotent dbClosed 100 100 (some "1") "1" 1 { itemA with is_open := false }
      rfl rfl rfl rfl rfl).1 rfl,
   (close_item_idempotent dbA 100 100 (some "1") "1" 1 itemA
      rfl rfl rfl rfl rfl).2.1 rfl⟩

/-! ## C6: broadcast tolerates per-recipient failures -/

/-- C6: `broadcast_text` attempts a delivery to every recipient in list
order and returns exactly the number of recipients whose delivery
succeeded — one failed delivery never aborts the rest and no error is
raised (the function is total and returns a plain count).  In
particular, broadcasting to ten recipients of which two deliveries
fail returns 8. -/
theorem broadcast_text_counts :
    (∀ (deliver : Int → Bool) (user_ids : List Int),
      broadcast_text deliver user_ids = (user_ids.filter deliver).length) ∧
    broadcast_text (fun u => !(u == 3 || u == 7)) [1, 2, 3, 4, 5, 6, 7, 8, 9, 10] = 8 := by
  constructor
  · intro deliver user_ids
    suffices h : ∀ n : Nat,
        List.foldl (fun delivered user_id => if deliver user_id then delivered + 1 else delivered)
          n user_ids = n + (user_ids.filter deliver).length by
      simpa [broadcast_text] using h 0
    induction user_ids with
    | nil => intro n; simp
    | cons x t ih =>
      intro n
      by_cases hx : deliver x = true
      · simp only [List.foldl_cons, List.filter_cons, hx, if_true, ih, List.length_cons]
        omega
      · simp only [Bool.not_eq_true] at hx
        simp [List.foldl_cons, List.filter_cons, hx, ih]
  · rfl

/-! ## C7: non-owner input never mutates an active draft -/

/-- C7: for every active draft — the AddItem draft, the PlaceBid draft
and every single-step admin draft — input from an identity other than
the draft's owner leaves the store and the stored conversation state
(hence the draft itself) unchanged; the handler only emits a notice. -/
theorem non_owner_input_is_non_mutating (db : Db) (sender : Int)
    (draftA : AddItemDraft) (draftB : BidDraft) (admin : Int)
    (photo : Option String) (text : Option String)
    (go bo io ho oso : Bool) (deliver : Int → Bool) :
    (sender ≠ draftA.seller_tg_id →
      (handle_additem_message db draftA sender photo text).db = db ∧
      (handle_additem_message db draftA sender photo text).conv = .AddItem draftA) ∧
    (sender ≠ draftB.bidder_tg_id →
      (handle_bid_message db draftB sender text go bo io ho oso).db = db ∧
      (handle_bid_message db draftB sender text go bo io ho oso).conv = .PlaceBid draftB) ∧
    (sender ≠ admin →
      (handle_add_category_message db admin sender text).db = db ∧
      (handle_add_category_message db admin sender text).conv = .AddCategory admin ∧
      (handle_close_item_message db admin sender text).db = db ∧
      (handle_close_item_message db admin sender text).conv = .CloseItem admin ∧
      (handle_close_item_message db admin sender text).notices = [] ∧
      (handle_remove_item_message db admin sender text).db = db ∧
      (handle_remove_item_message db admin sender text).conv = .RemoveItem admin ∧
      (handle_remove_category_message db admin sender text).db = db ∧
      (handle_remove_category_message db admin sender text).conv = .RemoveCategory admin ∧
      (handle_broadcast_message db admin sender text deliver).db = db ∧
      (handle_broadcast_message db admin sender text deliver).conv = .Broadcast admin) := by
  refine ⟨?_, ?_, ?_⟩
  · intro h
    constructor <;> simp [handle_additem_message, bne_iff_ne, h]
  · intro h
    constructor <;> simp [handle_bid_message, bne_iff_ne, h]
  · intro h
    refine ⟨?_, ?_, ?_, ?_, ?_, ?_, ?_, ?_, ?_, ?_, ?_⟩ <;>
      simp [handle_add_category_message, handle_close_item_message,
        handle_remove_item_message, handle_remove_category_message,
        handle_broadcast_message, bne_iff_ne, h]

/-- Witness for C7: a stranger (user 999) writing into drafts owned by
others changes neither the store nor any draft. -/
theorem non_owner_input_is_non_mutating_witness :
    ((handle_additem_message dbA (AddItemDraft.new 100) 999 none (some "Books")).db = dbA ∧
     (handle_additem_message dbA (AddItemDraft.new 100) 999 none (some "Books")).conv =
       .AddItem (AddItemDraft.new 100)) ∧
    ((handle_bid_message dbA ⟨1, 200⟩ 999 (some "50.00") true true true true true).db = dbA ∧
     (handle_bid_message dbA ⟨1, 200⟩ 999 (some "50.00") true true true true true).conv =
       .PlaceBid ⟨1, 200⟩) ∧
    ((handle_close_item_message dbA 100 999 (some "1")).db = dbA ∧
     (handle_close_item_message dbA 100 999 (some "1")).conv = .CloseItem 100) :=
  ⟨(non_owner_input_is_non_mutating dbA 999 (AddItemDraft.new 100) ⟨1, 200⟩ 100 none
      (some "Books") true true true true true (fun _ => true)).1 (by decide),
   (non_owner_input_is_non_mutating dbA 999 (AddItemDraft.new 100) ⟨1, 200⟩ 100 none
      (some "50.00") true true true true true (fun _ => true)).2.1 (by decide),
   ⟨((non_owner_input_is_non_mutating dbA 999 (AddItemDraft.new 100) ⟨1, 200⟩ 100 none
      (some "1") true true true true true (fun _ => true)).2.2 (by decide)).2.2.1,
    ((non_owner_input_is_non_mutating dbA 999 (AddItemDraft.new 100) ⟨1, 200⟩ 100 none
      (some "1") true true true true true (fun _ => true)).2.2 (by decide)).2.2.2.1⟩⟩

/-! ## C10: the declared conversation-state type -/

/-- C10 (code evaluated at the failing shape): every value of the
ConversationState type DECLARED in src/bot/state.rs is Idle, an
AddItem draft or a PlaceBid draft, so the declared type has no distinct
value for the AddCategory, CloseItem, RemoveItem, RemoveCategory or
Broadcast workflows that src/bot/handlers.rs constructs and matches
on. -/
theorem conversation_state_decl_three_variants (s : ConversationStateDecl) :
    s = .Idle ∨ (∃ d, s = .AddItem d) ∨ (∃ b, s = .PlaceBid b) := by
  cases s with
  | Idle => exact Or.inl rfl
  | AddItem d => exact Or.inr (Or.inl ⟨d, rfl⟩)
  | PlaceBid b => exact Or.inr (Or.inr ⟨b, rfl⟩)
